import Mathlib

/-!
Verification development for the `llm-gateway` proxy.

The definitions below are a shallow embedding of the Go sources:

* `internal/proxy/router.go`   — per-provider circuit breaker,
* `internal/proxy/failover.go` — ordered failover loop and retryability,
* `internal/proxy/gateway.go`  — chat/embeddings dispatch, cache key,
  provider-error mapping,
* `pkg/apierr`                 — client error envelopes,
* `internal/cache/memory.go`, `internal/cache/exact.go` — cache backends,
* `internal/logger/logger.go`  — bounded async request log.

Machine integers are embedded as `Int`/`Nat`; `time.Time`/`time.Duration`
values are embedded as `Int` nanoseconds (only differences and comparisons
of times occur in the modelled code, so the epoch is irrelevant).
-/

namespace LLMGateway

/-! ## Circuit breaker (`internal/proxy/router.go`) -/

/-- `cbState` from router.go: Closed / Open / HalfOpen. -/
inductive CbState where
  | cbClosed
  | cbOpen
  | cbHalfOpen
deriving DecidableEq, Repr

/-- Default circuit-breaker constants from `providers/provider.go`
(durations in nanoseconds, as Go's `time.Duration`). -/
def CBErrorThreshold : Int := 5

def CBTimeWindow : Int := 60 * 1000000000

def CBHalfOpenTimeout : Int := 30 * 1000000000

def MaxRetries : Nat := 3

/-- `CBConfig` from router.go.  Zero values fall back to package defaults. -/
structure CBConfig where
  errorThreshold : Int := 0
  timeWindow : Int := 0
  halfOpenTimeout : Int := 0
deriving DecidableEq, Repr

/-- `(c *CBConfig) errorThreshold()` — default when not positive. -/
def CBConfig.effErrorThreshold (c : CBConfig) : Int :=
  if c.errorThreshold > 0 then c.errorThreshold else CBErrorThreshold

/-- `(c *CBConfig) timeWindow()` — default when not positive. -/
def CBConfig.effTimeWindow (c : CBConfig) : Int :=
  if c.timeWindow > 0 then c.timeWindow else CBTimeWindow

/-- `(c *CBConfig) halfOpenTimeout()` — default when not positive. -/
def CBConfig.effHalfOpenTimeout (c : CBConfig) : Int :=
  if c.halfOpenTimeout > 0 then c.halfOpenTimeout else CBHalfOpenTimeout

/-- `providerCB` from router.go: per-provider breaker record. -/
structure ProviderCB where
  state : CbState
  errorCount : Int
  windowStart : Int
  openedAt : Int
  probeInflight : Bool
deriving DecidableEq, Repr

/-- Fresh per-provider record as built by `NewCircuitBreakerWithConfig`. -/
def ProviderCB.new (now : Int) : ProviderCB :=
  { state := .cbClosed, errorCount := 0, windowStart := now
    openedAt := 0, probeInflight := false }

/-- `CircuitBreaker.Allow` from router.go, for one tracked provider record.
Returns the admission decision together with the updated record
(`time.Since(x) = now - x`). -/
def cbAllow (cfg : CBConfig) (now : Int) (pcb : ProviderCB) : Bool × ProviderCB :=
  match pcb.state with
  | .cbClosed => (true, pcb)
  | .cbOpen =>
      if now - pcb.openedAt ≥ cfg.effHalfOpenTimeout then
        (true, { pcb with state := .cbHalfOpen, probeInflight := true })
      else
        (false, pcb)
  | .cbHalfOpen =>
      if pcb.probeInflight then
        (false, pcb)
      else
        (true, { pcb with probeInflight := true })

/-- `CircuitBreaker.RecordSuccess` from router.go. -/
def cbRecordSuccess (now : Int) (pcb : ProviderCB) : ProviderCB :=
  { pcb with state := .cbClosed, errorCount := 0, probeInflight := false
             windowStart := now }

/-- `CircuitBreaker.RecordFailure` from router.go: reset the rolling window
when expired, increment the counter, clear the probe flag, and open the
breaker when the counter reaches the threshold. -/
def cbRecordFailure (cfg : CBConfig) (now : Int) (pcb : ProviderCB) : ProviderCB :=
  let p1 :=
    if now - pcb.windowStart > cfg.effTimeWindow then
      { pcb with errorCount := 0, windowStart := now }
    else
      pcb
  let p2 := { p1 with errorCount := p1.errorCount + 1, probeInflight := false }
  if p2.errorCount ≥ cfg.effErrorThreshold then
    { p2 with state := .cbOpen, openedAt := now }
  else
    p2

/-- A sequence of `Allow` calls (at the given instants) with no intervening
`RecordSuccess`/`RecordFailure`: returns the decision list and final record. -/
def cbAllowSeq (cfg : CBConfig) : List Int → ProviderCB → List Bool × ProviderCB
  | [], pcb => ([], pcb)
  | t :: ts, pcb =>
      let (b, pcb1) := cbAllow cfg t pcb
      let (bs, pcb2) := cbAllowSeq cfg ts pcb1
      (b :: bs, pcb2)

/-! ## Go errors and retryability (`internal/proxy/failover.go`, `pkg/apierr`) -/

/-- Embedding of the Go `error` values that flow through the dispatcher.

* `statusErr`  — an error whose dynamic type implements
  `providers.StatusCoder` (`HTTPStatus() int`), e.g. the provider adapters'
  error types; `msg` is its `Error()` rendering.
* `deadlineExceeded` — the sentinel `context.DeadlineExceeded`.
* `wrapped t e` — `fmt.Errorf(t' + "%w", e)`: its dynamic type is
  `*fmt.wrapError`, whose method set is only `Error`/`Unwrap`.
* `plain` — any other error (`errors.New`, `fmt.Errorf` without `%w`). -/
inductive GoError where
  | statusErr (status : Int) (msg : String)
  | deadlineExceeded
  | wrapped (text : String) (inner : GoError)
  | plain (msg : String)
deriving DecidableEq, Repr

/-- The Go type assertion `err.(StatusCoder)`: succeeds only when the
dynamic type itself carries the method — it does NOT unwrap `%w` chains. -/
def GoError.asStatusCoder : GoError → Option Int
  | .statusErr s _ => some s
  | _ => none

/-- `errors.Is(err, context.DeadlineExceeded)` — walks the `Unwrap` chain. -/
def GoError.isDeadlineExceeded : GoError → Bool
  | .deadlineExceeded => true
  | .wrapped _ inner => inner.isDeadlineExceeded
  | _ => false

/-- `err.Error()` rendering (wrapping concatenates the `%w` format text). -/
def GoError.errorMsg : GoError → String
  | .statusErr _ m => m
  | .deadlineExceeded => "context deadline exceeded"
  | .wrapped t inner => t ++ inner.errorMsg
  | .plain m => m

/-- `isRetryable` from failover.go: the sentinel timeout and 5xx status-bearing
errors are retryable; other status-bearing errors are not; anything else is. -/
def isRetryable (e : GoError) : Bool :=
  if e = .deadlineExceeded then true
  else
    match e.asStatusCoder with
    | some status => decide (500 ≤ status ∧ status < 600)
    | none => true

/-! ## Failover loop (`internal/proxy/failover.go`) -/

/-- What the failover loop finds at one candidate name:

* `absent`  — `g.providers[name]` missing (skip, `continue`),
* `denied`  — the circuit breaker refused admission (skip, `continue`),
* `attempt r` — the provider is invoked; `r = none` is success,
  `r = some e` is the request error. -/
inductive Candidate where
  | absent
  | denied
  | attempt (result : Option GoError)
deriving DecidableEq, Repr

/-- Result of `requestWithFailover`'s loop: the ordered results of the
`prov.Request` invocations actually performed, whether a candidate
succeeded, the final `attempts` counter and the final `lastErr`. -/
structure FailoverResult where
  invoked : List (Option GoError)
  success : Bool
  attempts : Nat
  lastErr : Option GoError
deriving DecidableEq, Repr

/-- The candidate loop of `requestWithFailover` (failover.go lines 43-138).
`attempts` is checked against the budget at the top of each iteration;
skips (`absent`, `denied`) do not touch it; each invocation increments it;
success returns immediately; a non-retryable error breaks out. -/
def failoverLoop (maxRetries : Nat) :
    Nat → Option GoError → List Candidate → FailoverResult
  | attempts, lastErr, [] => ⟨[], false, attempts, lastErr⟩
  | attempts, lastErr, c :: rest =>
    if maxRetries ≤ attempts then ⟨[], false, attempts, lastErr⟩
    else
      match c with
      | .absent => failoverLoop maxRetries attempts lastErr rest
      | .denied => failoverLoop maxRetries attempts lastErr rest
      | .attempt none => ⟨[none], true, attempts + 1, lastErr⟩
      | .attempt (some e) =>
          if isRetryable e then
            let r := failoverLoop maxRetries (attempts + 1) (some e) rest
            ⟨some e :: r.invoked, r.success, r.attempts, r.lastErr⟩
          else
            ⟨[some e], false, attempts + 1, some e⟩

/-- `requestWithFailover`: run the loop; on failure wrap the last error as
`fmt.Errorf("failover: all providers failed after %d attempt(s): %w", ...)`
(failover.go lines 140-146). Returns the loop record and the error, if any. -/
def requestWithFailover (maxRetries : Nat) (cands : List Candidate) :
    FailoverResult × Option GoError :=
  let r := failoverLoop maxRetries 0 none cands
  if r.success then (r, none)
  else
    let last :=
      match r.lastErr with
      | some e => e
      | none => .plain "no providers available"
    (r, some (.wrapped
        ("failover: all providers failed after " ++ toString r.attempts
          ++ " attempt(s): ") last))

/-! ## Client error mapping (`pkg/apierr`, gateway.go `handleProviderError`) -/

/-- `apierr` type constants. -/
def TypeProviderError : String := "provider_error"

def TypeRateLimitError : String := "rate_limit_error"

/-- `apierr` code constants. -/
def CodeRateLimitExceeded : String := "rate_limit_exceeded"

def CodeProviderError : String := "provider_error"

def CodeRequestTimeout : String := "request_timeout"

/-- The client-visible error response: HTTP status, the optional
`Retry-After` header, and the `{error:{message,type,code}}` envelope. -/
structure APIResponse where
  status : Int
  retryAfter : Option String
  errType : String
  errCode : String
  message : String
deriving DecidableEq, Repr

/-- `apierr.Write`. -/
def apierrWrite (status : Int) (message errType code : String) : APIResponse :=
  ⟨status, none, errType, code, message⟩

/-- `apierr.WriteProviderError`: provider 429 → 429 + `Retry-After: 60`;
everything else (5xx and the default arm alike) → 502 provider_error. -/
def writeProviderError (providerStatus : Int) (msg : String) : APIResponse :=
  if providerStatus = 429 then
    { apierrWrite 429 msg TypeRateLimitError CodeRateLimitExceeded with
        retryAfter := some "60" }
  else if 500 ≤ providerStatus ∧ providerStatus < 600 then
    apierrWrite 502 msg TypeProviderError CodeProviderError
  else
    apierrWrite 502 msg TypeProviderError CodeProviderError

/-- `apierr.WriteTimeout`. -/
def writeTimeout : APIResponse :=
  apierrWrite 504 "provider request timed out" TypeProviderError CodeRequestTimeout

/-- `handleProviderError` from gateway.go lines 847-866: a direct type
assertion for `statusCoder` first, then `errors.Is` deadline check, then
the generic 502. -/
def handleProviderError (err : GoError) : APIResponse :=
  match err.asStatusCoder with
  | some s => writeProviderError s err.errorMsg
  | none =>
      if err.isDeadlineExceeded then writeTimeout
      else apierrWrite 502 err.errorMsg TypeProviderError CodeProviderError

/-- The chat dispatcher's provider-error path (gateway.go lines 674-686):
when `requestWithFailover` reports an error, the response is produced by
`handleProviderError` applied to the (wrapped) failover error. -/
def chatFailoverErrorResponse (maxRetries : Nat) (cands : List Candidate) :
    Option APIResponse :=
  match (requestWithFailover maxRetries cands).2 with
  | some e => some (handleProviderError e)
  | none => none

/-! ## Async request logger (`internal/logger/logger.go`) -/

/-- `channelBuffer` from logger.go. -/
def channelBuffer : Nat := 10000

/-- Observable state of the logger's bounded queue: the number of entries
buffered in `l.ch` and the `droppedLogs` counter. -/
structure LoggerState where
  queueLen : Nat
  dropped : Nat
deriving DecidableEq, Repr

/-- `Logger.Log` (logger.go lines 74-80): the non-blocking
`select { case l.ch <- entry: default: dropped++ }` — enqueue when the
buffered channel has free space, otherwise drop and count. -/
def loggerLog (s : LoggerState) : LoggerState :=
  if s.queueLen < channelBuffer then { s with queueLen := s.queueLen + 1 }
  else { s with dropped := s.dropped + 1 }

/-- `n` successive `Log` calls with no consumer draining the channel. -/
def loggerLogN : Nat → LoggerState → LoggerState
  | 0, s => s
  | n + 1, s => loggerLogN n (loggerLog s)

/-! ## Cache backends (`internal/cache/memory.go`, `internal/cache/exact.go`) -/

/-- One hour, in nanoseconds (`time.Hour`). -/
def timeHour : Int := 3600 * 1000000000

/-- `memItem` from memory.go. -/
structure MemItem where
  data : List Nat
  expiresAt : Int
deriving DecidableEq, Repr

/-- The `items` map of a `MemoryCache`. -/
def MemStore : Type := String → Option MemItem

/-- `MemoryCache.Set` (memory.go lines 72-87): a non-positive ttl is
replaced by one hour; the entry expires at `now + ttl`. -/
def memSet (store : MemStore) (now : Int) (key : String) (value : List Nat)
    (ttl : Int) : MemStore :=
  let ttl := if ttl ≤ 0 then timeHour else ttl
  fun k => if k = key then some ⟨value, now + ttl⟩ else store k

/-- `MemoryCache.Get` (memory.go lines 50-70): a miss on an absent key; a
present entry is returned unless `time.Now().After(expiresAt)` (strictly
later), in which case it is lazily expired. -/
def memGet (store : MemStore) (now : Int) (key : String) :
    Option (List Nat) × Bool :=
  match store key with
  | none => (none, false)
  | some item =>
      if now > item.expiresAt then (none, false)
      else (some item.data, true)

/-- The Redis `SET` command issued by `ExactCache.Set` (exact.go lines
85-100): key, value and ttl are forwarded to `c.client.Set` unchanged —
there is no coercion of non-positive TTLs in this backend. -/
structure RedisSetCmd where
  key : String
  value : List Nat
  ttl : Int
deriving DecidableEq, Repr

/-- `ExactCache.Set`, observed as the command it sends to the Redis client. -/
def exactCacheSet (key : String) (value : List Nat) (ttl : Int) : RedisSetCmd :=
  ⟨key, value, ttl⟩

/-! ## Model routing tables (`internal/providers/provider.go`, routing.go) -/

/-- `providers.EmbeddingModelAliases` (provider.go), as an association list. -/
def EmbeddingModelAliases : List (String × String) := [
  ("text-embedding-3-small", "openai"),
  ("text-embedding-3-large", "openai"),
  ("text-embedding-ada-002", "openai"),
  ("mistral-embed", "mistral"),
  ("text-embedding-004", "gemini"),
  ("embedding-001", "gemini")
]

/-- `providers.ModelAliases` (provider.go), as an association list. -/
def ModelAliases : List (String × String) := [
  ("gpt-4", "openai"),
  ("gpt-4-0613", "openai"),
  ("gpt-4o", "openai"),
  ("gpt-4o-2024-11-20", "openai"),
  ("gpt-4o-2024-08-06", "openai"),
  ("gpt-4o-2024-05-13", "openai"),
  ("gpt-4o-mini", "openai"),
  ("gpt-4o-mini-2024-07-18", "openai"),
  ("gpt-4-turbo", "openai"),
  ("gpt-4-turbo-2024-04-09", "openai"),
  ("gpt-4-turbo-preview", "openai"),
  ("gpt-3.5-turbo", "openai"),
  ("gpt-3.5-turbo-0125", "openai"),
  ("gpt-3.5-turbo-1106", "openai"),
  ("o1", "openai"),
  ("o1-mini", "openai"),
  ("o1-preview", "openai"),
  ("o1-2024-12-17", "openai"),
  ("o3", "openai"),
  ("o3-mini", "openai"),
  ("o3-mini-2025-01-31", "openai"),
  ("o4-mini", "openai"),
  ("gpt-4.1", "openai"),
  ("gpt-4.1-mini", "openai"),
  ("gpt-4.1-nano", "openai"),
  ("claude-3-5-sonnet", "anthropic"),
  ("claude-3-5-sonnet-20241022", "anthropic"),
  ("claude-3-5-haiku", "anthropic"),
  ("claude-3-5-haiku-20241022", "anthropic"),
  ("claude-3-opus", "anthropic"),
  ("claude-3-opus-20240229", "anthropic"),
  ("claude-3-haiku", "anthropic"),
  ("claude-3-haiku-20240307", "anthropic"),
  ("claude-3-sonnet-20240229", "anthropic"),
  ("claude-3-7-sonnet-20250219", "anthropic"),
  ("claude-3-7-sonnet", "anthropic"),
  ("claude-opus-4", "anthropic"),
  ("claude-sonnet-4", "anthropic"),
  ("claude-haiku-4", "anthropic"),
  ("claude-opus-4-5", "anthropic"),
  ("claude-sonnet-4-5", "anthropic"),
  ("claude-haiku-4-5", "anthropic"),
  ("claude-opus-4-6", "anthropic"),
  ("claude-sonnet-4-6", "anthropic"),
  ("claude-haiku-4-6", "anthropic"),
  ("gemini-pro", "gemini"),
  ("gemini-1.0-pro", "gemini"),
  ("gemini-1.5-pro", "gemini"),
  ("gemini-1.5-pro-002", "gemini"),
  ("gemini-1.5-flash", "gemini"),
  ("gemini-1.5-flash-002", "gemini"),
  ("gemini-1.5-flash-8b", "gemini"),
  ("gemini-2.0-flash", "gemini"),
  ("gemini-2.0-flash-lite", "gemini"),
  ("gemini-2.0-flash-exp", "gemini"),
  ("gemini-2.0-pro-exp", "gemini"),
  ("gemini-2.5-pro", "gemini"),
  ("gemini-2.5-flash", "gemini"),
  ("gemini-exp-1206", "gemini"),
  ("gemini-2.0-flash-thinking-exp", "gemini"),
  ("gemma-3-27b-it", "gemini"),
  ("gemma-3-12b-it", "gemini"),
  ("gemma-3-4b-it", "gemini"),
  ("gemma-2-27b-it", "gemini"),
  ("gemma-2-9b-it", "gemini"),
  ("gemma-2-2b-it", "gemini"),
  ("learnlm-1.5-pro-experimental", "gemini"),
  ("mistral-large-latest", "mistral"),
  ("mistral-small-latest", "mistral"),
  ("mistral-large", "mistral"),
  ("mistral-large-2411", "mistral"),
  ("mistral-medium", "mistral"),
  ("mistral-small-2501", "mistral"),
  ("mistral-small-2412", "mistral"),
  ("mistral-nemo", "mistral"),
  ("open-mistral-nemo", "mistral"),
  ("mixtral-8x7b", "mistral"),
  ("open-mixtral-8x22b", "mistral"),
  ("pixtral-large-2411", "mistral"),
  ("pixtral-12b-2409", "mistral"),
  ("codestral-2501", "mistral"),
  ("codestral-latest", "mistral"),
  ("ministral-3b-latest", "mistral"),
  ("ministral-8b-latest", "mistral"),
  ("grok-3", "xai"),
  ("grok-3-fast", "xai"),
  ("grok-3-mini", "xai"),
  ("grok-3-mini-fast", "xai"),
  ("grok-3-latest", "xai"),
  ("grok-2", "xai"),
  ("grok-2-mini", "xai"),
  ("grok-2-1212", "xai"),
  ("grok-2-vision", "xai"),
  ("grok-2-vision-1212", "xai"),
  ("grok-2-image-1212", "xai"),
  ("grok-beta", "xai"),
  ("grok-vision-beta", "xai"),
  ("deepseek-chat", "deepseek"),
  ("deepseek-reasoner", "deepseek"),
  ("llama-3.3-70b-versatile", "groq"),
  ("llama-3.1-70b-versatile", "groq"),
  ("llama-3.1-8b-instant", "groq"),
  ("llama3-70b-8192", "groq"),
  ("llama3-8b-8192", "groq"),
  ("gemma2-9b-it", "groq"),
  ("meta-llama/Llama-3.3-70B-Instruct-Turbo", "together"),
  ("meta-llama/Meta-Llama-3.1-405B-Instruct-Turbo", "together"),
  ("meta-llama/Meta-Llama-3.1-70B-Instruct-Turbo", "together"),
  ("meta-llama/Meta-Llama-3.1-8B-Instruct-Turbo", "together"),
  ("mistralai/Mixtral-8x7B-Instruct-v0.1", "together"),
  ("mistralai/Mixtral-8x22B-Instruct-v0.1", "together"),
  ("Qwen/Qwen2.5-72B-Instruct-Turbo", "together"),
  ("deepseek-ai/DeepSeek-R1", "together"),
  ("google/gemma-2-27b-it", "together"),
  ("llama3.1-8b", "cerebras"),
  ("llama3.1-70b", "cerebras"),
  ("llama3.3-70b", "cerebras"),
  ("qwen-3-32b", "cerebras"),
  ("deepseek-r1-distill-llama-70b", "cerebras"),
  ("qwen-3-235b", "cerebras"),
  ("llama4-scout-17b-16e", "cerebras"),
  ("moonshot-v1-8k", "moonshot"),
  ("moonshot-v1-32k", "moonshot"),
  ("moonshot-v1-128k", "moonshot"),
  ("moonshot-v1-auto", "moonshot"),
  ("kimi-latest", "moonshot"),
  ("MiniMax-Text-01", "minimax"),
  ("MiniMax-VL-01", "minimax"),
  ("abab6.5s-chat", "minimax"),
  ("abab6.5-chat", "minimax"),
  ("abab5.5-chat", "minimax"),
  ("sonar", "perplexity"),
  ("sonar-pro", "perplexity"),
  ("sonar-reasoning", "perplexity"),
  ("qwen-turbo", "qwen"),
  ("qwen-plus", "qwen"),
  ("qwen-max", "qwen"),
  ("qwen-max-2025-01-25", "qwen"),
  ("qwen-long", "qwen"),
  ("qwen-vl-plus", "qwen"),
  ("qwen-vl-max", "qwen"),
  ("qwq-plus", "qwen"),
  ("qwq-32b", "qwen"),
  ("qwen2.5-72b-instruct", "qwen"),
  ("qwen2.5-32b-instruct", "qwen"),
  ("qwen2.5-7b-instruct", "qwen"),
  ("meta-llama/Meta-Llama-3.1-70B-Instruct", "nebius"),
  ("meta-llama/Meta-Llama-3.1-8B-Instruct", "nebius"),
  ("meta-llama/Meta-Llama-3.3-70B-Instruct", "nebius"),
  ("Qwen/Qwen2.5-72B-Instruct", "nebius"),
  ("mistralai/Mistral-7B-Instruct-v0.3", "nebius"),
  ("mistralai/Mistral-Nemo-Instruct-2407", "nebius"),
  ("deepseek-ai/DeepSeek-V3", "nebius"),
  ("deepseek-ai/DeepSeek-R1-Nebius", "nebius"),
  ("meta-llama/llama-3.1-8b-instruct", "novita"),
  ("meta-llama/llama-3.1-70b-instruct", "novita"),
  ("meta-llama/llama-3.1-405b-instruct", "novita"),
  ("meta-llama/llama-3.3-70b-instruct", "novita"),
  ("deepseek/deepseek-v3", "novita"),
  ("deepseek/deepseek-r1", "novita"),
  ("mistralai/mistral-7b-instruct-v0.3", "novita"),
  ("qwen/qwen2.5-72b-instruct", "novita"),
  ("doubao-1.5-pro-32k", "bytedance"),
  ("doubao-1.5-lite-32k", "bytedance"),
  ("doubao-pro-32k", "bytedance"),
  ("doubao-lite-32k", "bytedance"),
  ("doubao-pro-4k", "bytedance"),
  ("doubao-pro-128k", "bytedance"),
  ("glm-4-plus", "zai"),
  ("glm-4-air", "zai"),
  ("glm-4-flash", "zai"),
  ("glm-4-0520", "zai"),
  ("glm-4", "zai"),
  ("glm-3-turbo", "zai"),
  ("inference-llama-3.1-8b", "inference"),
  ("inference-llama-3.1-70b", "inference"),
  ("nanogpt-gpt-4o", "nanogpt"),
  ("nanogpt-claude-3", "nanogpt"),
  ("anthropic.claude-3-5-sonnet-20241022-v2:0", "bedrock"),
  ("anthropic.claude-3-opus-20240229-v1:0", "bedrock"),
  ("anthropic.claude-3-haiku-20240307-v1:0", "bedrock"),
  ("anthropic.claude-3-sonnet-20240229-v1:0", "bedrock"),
  ("meta.llama3-70b-instruct-v1:0", "bedrock"),
  ("meta.llama3-8b-instruct-v1:0", "bedrock"),
  ("meta.llama3-1-70b-instruct-v1:0", "bedrock"),
  ("amazon.titan-text-express-v1", "bedrock"),
  ("amazon.titan-text-lite-v1", "bedrock"),
  ("amazon.nova-pro-v1:0", "bedrock"),
  ("amazon.nova-lite-v1:0", "bedrock"),
  ("amazon.nova-micro-v1:0", "bedrock"),
  ("mistral.mistral-large-2402-v1:0", "bedrock"),
  ("ai21.jamba-1-5-large-v1:0", "bedrock"),
  ("azure-gpt-4", "azure"),
  ("azure-gpt-4o", "azure"),
  ("azure-gpt-4-turbo", "azure"),
  ("azure-gpt-4o-mini", "azure"),
  ("azure-o1", "azure"),
  ("azure-o3-mini", "azure"),
  ("azure-gpt-4.1", "azure"),
  ("azure-gpt-4.1-mini", "azure"),
  ("vertexai-gemini-2.0-flash", "vertexai"),
  ("vertexai-gemini-2.0-flash-lite", "vertexai"),
  ("vertexai-gemini-1.5-pro", "vertexai"),
  ("vertexai-gemini-1.5-flash", "vertexai"),
  ("vertexai-gemini-2.5-pro", "vertexai"),
  ("vertexai-gemini-2.5-flash", "vertexai")
]

/-- `resolveProvider` (routing.go): alias-table lookup, default "openai". -/
def resolveProvider (model : String) : String :=
  match ModelAliases.lookup model with
  | some name => name
  | none => "openai"

/-- `resolveEmbeddingProvider` (routing.go): embedding aliases first, then
the chat aliases, then "openai". -/
def resolveEmbeddingProvider (model : String) : String :=
  match EmbeddingModelAliases.lookup model with
  | some name => name
  | none =>
      match ModelAliases.lookup model with
      | some name => name
      | none => "openai"

/-! ## Chat dispatch control flow (`gateway.go`, `dispatchChat`) -/

/-- Oracles for the branch conditions of one `dispatchChat` run, in source
order (gateway.go lines 550-778). -/
structure ChatEnv where
  parseOk : Bool           -- json.Unmarshal of the body succeeded
  modelGiven : Bool        -- req.Model != ""
  stream : Bool            -- req.Stream
  providersEmpty : Bool    -- len(g.providers) == 0
  rateLimited : Bool       -- limiter present, err == nil and !allowed
  hasCache : Bool          -- g.cache != nil
  exclusions : Option Bool -- none: no list; some b: Matches(req.Model) = b
  cacheHit : Bool          -- the cache Get hits (when it is performed)
  providerErr : Bool       -- requestWithFailover returned an error
  respHasStream : Bool     -- resp.Stream != nil
  marshalOk : Bool         -- json.Marshal of the envelope succeeded
deriving DecidableEq, Repr

/-- Client-observable cache behaviour of one `dispatchChat` run. -/
structure ChatOutcome where
  cacheGet : Bool          -- g.cache.Get was called
  cacheSet : Bool          -- g.cache.Set was called
  xCache : Option String   -- the X-Cache response header, if set
  sse : Bool               -- the response was served as SSE
  status : Int             -- the HTTP status written
deriving DecidableEq, Repr

/-- `cacheEligible` from gateway.go line 625:
`!req.Stream && g.cache != nil && (g.cacheExclusions == nil ||
!g.cacheExclusions.Matches(req.Model))`. -/
def cacheEligible (env : ChatEnv) : Bool :=
  !env.stream && env.hasCache &&
    (match env.exclusions with
     | none => true
     | some m => !m)

/-- The control flow of `dispatchChat` (gateway.go lines 550-778), reduced
to its client-observable cache- and streaming-behaviour. -/
def dispatchChatModel (env : ChatEnv) : ChatOutcome :=
  if !env.parseOk then ⟨false, false, none, false, 400⟩
  else if !env.modelGiven then ⟨false, false, none, false, 400⟩
  else if env.providersEmpty then ⟨false, false, none, false, 502⟩
  else if env.rateLimited then ⟨false, false, none, false, 429⟩
  else
    let elig := cacheEligible env
    if elig && env.cacheHit then
      -- cache hit: X-Cache: HIT, stored bytes, early return (no Set)
      ⟨true, false, some "HIT", false, 200⟩
    else if env.providerErr then
      -- handleProviderError path (502/504/... depending on the error)
      ⟨elig, false, none, false, 502⟩
    else if env.stream && env.respHasStream then
      -- SSE pass-through: no cache write, no X-Cache header
      ⟨elig, false, none, true, 200⟩
    else if !env.marshalOk then
      ⟨elig, false, none, false, 500⟩
    else
      -- non-streaming success: Set iff eligible, then X-Cache: MISS
      ⟨elig, elig, some "MISS", false, 200⟩

/-! ## Embeddings dispatch (`gateway.go`, `dispatchEmbeddings`) -/

/-- Observable outcome of the provider-resolution part of
`dispatchEmbeddings` (gateway.go lines 328-354). -/
inductive EmbOutcome where
  | noProviders                  -- 502 "no providers configured"
  | unsupported (name : String)  -- 400 "provider %q does not support embeddings"
  | embedCall (name : String)    -- embedder.Embed is invoked on this provider
deriving DecidableEq, Repr

/-- The provider registry, as the list of (name, implements-EmbeddingProvider)
pairs of `g.providers`; `pick` stands for the first pair yielded by Go map
iteration (which is not deterministic), constrained to be a member. -/
def registryLookup (reg : List (String × Bool)) (name : String) : Option Bool :=
  reg.lookup name

/-- Steps 2-4 of `dispatchEmbeddings`: resolve the provider from the model,
fail 502 on an empty registry, fall back to an arbitrary registry element
when the resolved name is absent, and fail 400 when the chosen provider
does not implement `providers.EmbeddingProvider`. -/
def dispatchEmbeddingsRoute (reg : List (String × Bool))
    (pick : String × Bool) (model : String) : EmbOutcome :=
  let providerName := resolveEmbeddingProvider model
  if reg.isEmpty then .noProviders
  else
    let prov :=
      match registryLookup reg providerName with
      | some supports => (providerName, supports)
      | none => pick
    if prov.2 then .embedCall prov.1
    else .unsupported prov.1

/-! ## Cache key (`gateway.go`, `buildCacheKey`)

`buildCacheKey` JSON-serializes an anonymous struct (Go `encoding/json`,
fields in declaration order, HTML escaping on), hashes the bytes with
SHA-256 and hex-encodes the digest after a `"cache:"` tag.  The embedding
below reproduces the byte-exact serialization at the level of Unicode
scalar values (Lean `Char`); `temperature` is embedded as the exact
rational value of the Go `float64`, and `fmt.Sprintf("%.2f", ·)` as the
correctly-rounded (half-to-even) two-digit decimal rendering that Go's
`strconv` produces for that exact value. -/

/-- `providers.Message`. -/
structure Message where
  role : String := ""
  content : String := ""
deriving DecidableEq, Repr

/-- `providers.ProxyRequest` (provider.go): the normalized request. -/
structure ProxyRequest where
  model : String := ""
  messages : List Message := []
  stream : Bool := false
  temperature : ℚ := 0
  maxTokens : Int := 0
  workspaceID : String := ""
  apiKey : String := ""
  apiKeyID : String := ""
  requestID : String := ""
deriving DecidableEq, Repr

/-- Decimal digit character (`'0' + d`). -/
def digitChar (d : Nat) : Char := Char.ofNat (48 + d)

/-- Lower-case hex digit character, as `strconv`/`encoding/hex` use. -/
def hexDigitChar (d : Nat) : Char :=
  if d < 10 then Char.ofNat (48 + d) else Char.ofNat (87 + d)

/-- Decimal rendering of a natural number, most-significant digit first. -/
def natToChars (n : Nat) : List Char :=
  if h : n < 10 then [digitChar n]
  else natToChars (n / 10) ++ [digitChar (n % 10)]
termination_by n
decreasing_by exact Nat.div_lt_self (by omega) (by omega)

/-- Decimal rendering of a Go `int` (json int encoding). -/
def intToChars : Int → List Char
  | .ofNat n => natToChars n
  | .negSucc n => '-' :: natToChars (n + 1)

/-- Go `encoding/json` escaping of one character (HTML escaping enabled,
as `json.Marshal` uses): quote, backslash and `\n`/`\r`/`\t` get two-char
escapes; other control characters and `<`, `>`, `&` get `\u00XX`;
U+2028/U+2029 get `\u202X`; everything else is copied. -/
def goEscapeChar (c : Char) : List Char :=
  if c = '"' then ['\\', '"']
  else if c = '\\' then ['\\', '\\']
  else if c = '\n' then ['\\', 'n']
  else if c = '\r' then ['\\', 'r']
  else if c = '\t' then ['\\', 't']
  else if c = '<' ∨ c = '>' ∨ c = '&' then
    ['\\', 'u', '0', '0', hexDigitChar (c.toNat / 16), hexDigitChar (c.toNat % 16)]
  else if c.toNat < 32 then
    ['\\', 'u', '0', '0', hexDigitChar (c.toNat / 16), hexDigitChar (c.toNat % 16)]
  else if c.toNat = 8232 ∨ c.toNat = 8233 then
    ['\\', 'u', '2', '0', '2', hexDigitChar (c.toNat % 16)]
  else [c]

/-- JSON escaping of a character sequence. -/
def escChars : List Char → List Char
  | [] => []
  | c :: cs => goEscapeChar c ++ escChars cs

/-- A JSON string literal: quote, escaped content, quote. -/
def quoteChars (s : List Char) : List Char :=
  '"' :: (escChars s ++ ['"'])

/-- The characters of a Lean string literal (used for the fixed JSON
punctuation emitted by the serializer). -/
def lit (s : String) : List Char := s.data

/-- Round a rational to the nearest integer, ties to even — the rounding
of Go's `strconv` fixed-precision formatting. -/
def roundHalfEven (q : ℚ) : Int :=
  let f := ⌊q⌋
  let r := q - (f : ℚ)
  if r < 1 / 2 then f
  else if 1 / 2 < r then f + 1
  else if f % 2 = 0 then f else f + 1

/-- Two-digit zero-padded rendering of `k < 100`. -/
def twoFracDigits (k : Nat) : List Char := [digitChar (k / 10), digitChar (k % 10)]

/-- `|q|` rendered with two decimal places. -/
def fmtF2abs (q : ℚ) : List Char :=
  let n := (roundHalfEven (q * 100)).toNat
  natToChars (n / 100) ++ '.' :: twoFracDigits (n % 100)

/-- `fmt.Sprintf("%.2f", q)` for the exact rational value `q` of a Go
`float64`. -/
def fmtF2 (q : ℚ) : List Char :=
  if q < 0 then '-' :: fmtF2abs (-q) else fmtF2abs q

/-- json encoding of one element of the `msgs` slice:
`{"role":…,"content":…}`. -/
def msgChars (m : Message) : List Char :=
  lit "\x7b\"role\":" ++ quoteChars m.role.data
    ++ lit ",\"content\":" ++ quoteChars m.content.data ++ lit "\x7d"

/-- Comma-separated concatenation (json array elements). -/
def commaSep : List (List Char) → List Char
  | [] => []
  | [x] => x
  | x :: xs => x ++ ',' :: commaSep xs

/-- json encoding of the `msgs` slice (`make` yields a non-nil slice, so an
empty slice serializes as `[]`). -/
def msgsChars (msgs : List Message) : List Char :=
  lit "[" ++ commaSep (msgs.map msgChars) ++ lit "]"

/-- The canonical JSON payload of `buildCacheKey` (gateway.go lines
826-842): the anonymous struct `{w, k, p, m, t, mt, msgs}` serialized by
`json.Marshal` in declaration order. -/
def canonicalJsonChars (req : ProxyRequest) : List Char :=
  lit "\x7b\"w\":" ++ quoteChars req.workspaceID.data
    ++ lit ",\"k\":" ++ quoteChars req.apiKeyID.data
    ++ lit ",\"p\":" ++ quoteChars (resolveProvider req.model).data
    ++ lit ",\"m\":" ++ quoteChars req.model.data
    ++ lit ",\"t\":" ++ quoteChars (fmtF2 req.temperature)
    ++ lit ",\"mt\":" ++ intToChars req.maxTokens
    ++ lit ",\"msgs\":" ++ msgsChars req.messages ++ lit "\x7d"

/-- The canonical JSON payload, as a string. -/
def canonicalJson (req : ProxyRequest) : String := ⟨canonicalJsonChars req⟩

/-- UTF-8 encoding of one Unicode scalar value. -/
def charUtf8 (c : Char) : List Nat :=
  let n := c.toNat
  if n < 128 then [n]
  else if n < 2048 then [192 + n / 64, 128 + n % 64]
  else if n < 65536 then [224 + n / 4096, 128 + n / 64 % 64, 128 + n % 64]
  else [240 + n / 262144, 128 + n / 4096 % 64, 128 + n / 64 % 64, 128 + n % 64]

/-- UTF-8 encoding of a character sequence (the bytes Go hashes). -/
def utf8Bytes : List Char → List Nat
  | [] => []
  | c :: cs => charUtf8 c ++ utf8Bytes cs

/-! SHA-256 (`crypto/sha256.Sum256`), over byte lists. -/

/-- Truncation to 32 bits. -/
def w32 (x : Nat) : Nat := x % 4294967296

/-- 32-bit rotate right. -/
def rotr32 (x n : Nat) : Nat := w32 ((x >>> n) ||| (x <<< (32 - n)))

def sigmaSmall0 (x : Nat) : Nat := (rotr32 x 7) ^^^ (rotr32 x 18) ^^^ (x >>> 3)

def sigmaSmall1 (x : Nat) : Nat := (rotr32 x 17) ^^^ (rotr32 x 19) ^^^ (x >>> 10)

def sigmaBig0 (x : Nat) : Nat := (rotr32 x 2) ^^^ (rotr32 x 13) ^^^ (rotr32 x 22)

def sigmaBig1 (x : Nat) : Nat := (rotr32 x 6) ^^^ (rotr32 x 11) ^^^ (rotr32 x 25)

/-- The SHA-256 round constants. -/
def sha256K : List Nat := [
  1116352408, 1899447441, 3049323471, 3921009573,
  961987163, 1508970993, 2453635748, 2870763221,
  3624381080, 310598401, 607225278, 1426881987,
  1925078388, 2162078206, 2614888103, 3248222580,
  3835390401, 4022224774, 264347078, 604807628,
  770255983, 1249150122, 1555081692, 1996064986,
  2554220882, 2821834349, 2952996808, 3210313671,
  3336571891, 3584528711, 113926993, 338241895,
  666307205, 773529912, 1294757372, 1396182291,
  1695183700, 1986661051, 2177026350, 2456956037,
  2730485921, 2820302411, 3259730800, 3345764771,
  3516065817, 3600352804, 4094571909, 275423344,
  430227734, 506948616, 659060556, 883997877,
  958139571, 1322822218, 1537002063, 1747873779,
  1955562222, 2024104815, 2227730452, 2361852424,
  2428436474, 2756734187, 3204031479, 3329325298]

/-- The SHA-256 initial hash values. -/
def sha256H0 : List Nat := [
  1779033703, 3144134277, 1013904242, 2773480762,
  1359893119, 2600822924, 528734635, 1541459225]

/-- `k` bytes of `n`, big-endian. -/
def beBytes (k : Nat) (n : Nat) : List Nat :=
  (List.range k).map (fun i => n / 256 ^ (k - 1 - i) % 256)

/-- SHA-256 message padding: `0x80`, zeros to 56 mod 64, 8-byte bit length. -/
def sha256Pad (msg : List Nat) : List Nat :=
  let z := (64 + 56 - (msg.length + 1) % 64) % 64
  msg ++ [128] ++ List.replicate z 0 ++ beBytes 8 (8 * msg.length)

/-- Group bytes into big-endian 32-bit words. -/
def bytesToWords : List Nat → List Nat
  | b0 :: b1 :: b2 :: b3 :: rest =>
      (((b0 * 256 + b1) * 256 + b2) * 256 + b3) :: bytesToWords rest
  | _ => []

/-- Extend the 16-word block to the 64-word message schedule. -/
def extendSchedule (w : List Nat) : List Nat :=
  if h : 64 ≤ w.length then w
  else
    let i := w.length
    extendSchedule (w ++ [w32 (sigmaSmall1 (w.getD (i - 2) 0) + w.getD (i - 7) 0
      + sigmaSmall0 (w.getD (i - 15) 0) + w.getD (i - 16) 0)])
termination_by 64 - w.length
decreasing_by simp; omega

/-- One SHA-256 compression round. -/
def sha256Round (st : List Nat) (kw : Nat × Nat) : List Nat :=
  match st with
  | [a, b, c, d, e, f, g, h] =>
      let t1 := w32 (h + sigmaBig1 e + ((e &&& f) ^^^ ((4294967295 - e) &&& g))
        + kw.1 + kw.2)
      let t2 := w32 (sigmaBig0 a + ((a &&& b) ^^^ (a &&& c) ^^^ (b &&& c)))
      [w32 (t1 + t2), a, b, c, w32 (d + t1), e, f, g]
  | st => st

/-- Compress one 64-byte block into the hash state. -/
def sha256Compress (hs : List Nat) (block : List Nat) : List Nat :=
  let w := extendSchedule (bytesToWords block)
  let final := (sha256K.zip w).foldl sha256Round hs
  (hs.zip final).map (fun p => w32 (p.1 + p.2))

/-- Fold the padded message, 64 bytes at a time. -/
def sha256Blocks (hs : List Nat) (bytes : List Nat) : List Nat :=
  match bytes with
  | [] => hs
  | b :: rest =>
      sha256Blocks (sha256Compress hs ((b :: rest).take 64)) ((b :: rest).drop 64)
termination_by bytes.length
decreasing_by simp; omega

/-- `sha256.Sum256`: the 32 digest bytes. -/
def sha256 (msg : List Nat) : List Nat :=
  ((sha256Blocks sha256H0 (sha256Pad msg)).map (beBytes 4)).flatten

/-- `hex.EncodeToString`: two lower-case hex digits per byte. -/
def hexOfBytes : List Nat → List Char
  | [] => []
  | b :: bs => hexDigitChar (b / 16) :: hexDigitChar (b % 16) :: hexOfBytes bs

/-- `buildCacheKey` (gateway.go lines 814-845):
`"cache:" + hex(sha256(json))`. -/
def buildCacheKey (req : ProxyRequest) : String :=
  "cache:" ++ String.mk (hexOfBytes (sha256 (utf8Bytes (canonicalJsonChars req))))

/-! A decoder for the canonical JSON format, used to prove that the
serialization is injective in each field. -/

/-- Value of a lower-case hex digit character. -/
def hexVal (c : Char) : Option Nat :=
  if 48 ≤ c.toNat ∧ c.toNat ≤ 57 then some (c.toNat - 48)
  else if 97 ≤ c.toNat ∧ c.toNat ≤ 102 then some (c.toNat - 87)
  else none

/-- Decode an escaped JSON string body up to the closing quote; returns the
decoded characters and the remaining input. -/
def parseStrBody : List Char → Option (List Char × List Char)
  | [] => none
  | c :: rest =>
    if c = '"' then some ([], rest)
    else if c = '\\' then
      match rest with
      | [] => none
      | e :: rest2 =>
        if e = '"' then (parseStrBody rest2).map (fun p => ('"' :: p.1, p.2))
        else if e = '\\' then (parseStrBody rest2).map (fun p => ('\\' :: p.1, p.2))
        else if e = 'n' then (parseStrBody rest2).map (fun p => ('\n' :: p.1, p.2))
        else if e = 'r' then (parseStrBody rest2).map (fun p => ('\r' :: p.1, p.2))
        else if e = 't' then (parseStrBody rest2).map (fun p => ('\t' :: p.1, p.2))
        else if e = 'u' then
          match rest2 with
          | h1 :: h2 :: h3 :: h4 :: rest3 =>
            match hexVal h1, hexVal h2, hexVal h3, hexVal h4 with
            | some a, some b, some c2, some d =>
                (parseStrBody rest3).map (fun p =>
                  (Char.ofNat (((a * 16 + b) * 16 + c2) * 16 + d) :: p.1, p.2))
            | _, _, _, _ => none
          | _ => none
        else none
    else (parseStrBody rest).map (fun p => (c :: p.1, p.2))
termination_by l => l.length
decreasing_by all_goals (simp_all; try omega)

/-- Decode a quoted JSON string literal. -/
def parseQuoted : List Char → Option (List Char × List Char)
  | '"' :: rest => parseStrBody rest
  | _ => none

/-- Consume an expected literal. -/
def dropLitChars : List Char → List Char → Option (List Char)
  | [], input => some input
  | l :: ls, input =>
    match input with
    | [] => none
    | c :: cs => if c = l then dropLitChars ls cs else none

/-- Consume a maximal run of decimal digits into an accumulator. -/
def parseNatAux : List Char → Nat → Nat × List Char
  | [], acc => (acc, [])
  | c :: rest, acc =>
      if c.isDigit then parseNatAux rest (acc * 10 + (c.toNat - 48))
      else (acc, c :: rest)

/-- Decode a json integer (optional minus sign, then digits). -/
def parseIntChars (input : List Char) : Option (Int × List Char) :=
  match input with
  | [] => none
  | c :: rest =>
      if c = '-' then
        match rest with
        | c2 :: _ =>
            if c2.isDigit then
              let p := parseNatAux rest 0
              some (-(p.1 : Int), p.2)
            else none
        | [] => none
      else if c.isDigit then
        let p := parseNatAux input 0
        some ((p.1 : Int), p.2)
      else none

/-- Decode one `{"role":…,"content":…}` object. -/
def parseMsg (input : List Char) :
    Option ((List Char × List Char) × List Char) := do
  let i1 ← dropLitChars (lit "\x7b\"role\":") input
  let (role, i2) ← parseQuoted i1
  let i3 ← dropLitChars (lit ",\"content\":") i2
  let (content, i4) ← parseQuoted i3
  let i5 ← dropLitChars (lit "\x7d") i4
  pure ((role, content), i5)

/-- Decode a non-empty comma-separated sequence of message objects followed
by the closing bracket (with fuel). -/
def parseMsgsAux : Nat → List Char → Option (List (List Char × List Char) × List Char)
  | 0, _ => none
  | fuel + 1, input =>
    match parseMsg input with
    | none => none
    | some (m, rest) =>
      match rest with
      | ',' :: rest2 => (parseMsgsAux fuel rest2).map (fun p => (m :: p.1, p.2))
      | ']' :: rest2 => some ([m], rest2)
      | _ => none

/-- Decode the json `msgs` array. -/
def parseMsgsChars (input : List Char) :
    Option (List (List Char × List Char) × List Char) := do
  let i1 ← dropLitChars (lit "[") input
  match dropLitChars (lit "]") i1 with
  | some rest => some ([], rest)
  | none => parseMsgsAux (i1.length + 1) i1

/-- Decode one `"<tag>"<string-literal>` field. -/
def parseField (tag : String) (input : List Char) :
    Option (List Char × List Char) := do
  let i1 ← dropLitChars (lit tag) input
  parseQuoted i1

/-- Decode the `mt` and `msgs` fields and the closing brace. -/
def parseCanonicalTail (i10 : List Char) :
    Option (Int × List (List Char × List Char)) := do
  let i11 ← dropLitChars (lit ",\"mt\":") i10
  let (mt, i12) ← parseIntChars i11
  let i13 ← dropLitChars (lit ",\"msgs\":") i12
  let (msgs, i14) ← parseMsgsChars i13
  let _ ← dropLitChars (lit "\x7d") i14
  pure (mt, msgs)

/-- Decode the complete canonical JSON payload into its seven components. -/
def parseCanonical (input : List Char) :
    Option (List Char × List Char × List Char × List Char × List Char × Int ×
      List (List Char × List Char)) := do
  let (w, i2) ← parseField "\x7b\"w\":" input
  let (k, i4) ← parseField ",\"k\":" i2
  let (p, i6) ← parseField ",\"p\":" i4
  let (m, i8) ← parseField ",\"m\":" i6
  let (t, i10) ← parseField ",\"t\":" i8
  let (mt, msgs) ← parseCanonicalTail i10
  pure (w, k, p, m, t, mt, msgs)

/-! ## Theorems -/

/-- Helper: in HalfOpen with a probe in flight, `Allow` rejects and leaves
the record unchanged. -/
theorem cbAllow_halfOpen_inflight (cfg : CBConfig) (t : Int) (p : ProviderCB)
    (h1 : p.state = .cbHalfOpen) (h2 : p.probeInflight = true) :
    cbAllow cfg t p = (false, p) := by
  simp [cbAllow, h1, h2]

/-- Helper: any sequence of `Allow` calls on a HalfOpen record with a probe
in flight is all-rejected and leaves the record unchanged. -/
theorem cbAllowSeq_halfOpen_inflight (cfg : CBConfig) (p : ProviderCB)
    (h1 : p.state = .cbHalfOpen) (h2 : p.probeInflight = true) :
    ∀ ts : List Int,
      cbAllowSeq cfg ts p = (ts.map (fun _ => false), p) := by
  intro ts
  induction ts with
  | nil => simp [cbAllowSeq]
  | cons t ts ih =>
      simp [cbAllowSeq, cbAllow_halfOpen_inflight cfg t p h1 h2, ih]

/-- C2: for a breaker in the Open state with `HalfOpenTimeout` elapsed since
`opened_at`, the next `allow()` returns true, transitions the breaker to
HalfOpen and sets `probe_in_flight`; and every further `allow()` call (at any
instants, with no intervening record) returns false and leaves the record
unchanged, i.e. exactly one probe is admitted until the probe resolves. -/
theorem allow_open_admits_exactly_one_probe
    (cfg : CBConfig) (pcb : ProviderCB) (now : Int)
    (hstate : pcb.state = .cbOpen)
    (helapsed : now - pcb.openedAt ≥ cfg.effHalfOpenTimeout) :
    (cbAllow cfg now pcb).1 = true ∧
    (cbAllow cfg now pcb).2.state = .cbHalfOpen ∧
    (cbAllow cfg now pcb).2.probeInflight = true ∧
    ∀ ts : List Int,
      (cbAllowSeq cfg ts (cbAllow cfg now pcb).2).1.all (fun b => b = false) = true ∧
      (cbAllowSeq cfg ts (cbAllow cfg now pcb).2).2 = (cbAllow cfg now pcb).2 := by
  have hallow : cbAllow cfg now pcb =
      (true, { pcb with state := .cbHalfOpen, probeInflight := true }) := by
    simp [cbAllow, hstate, helapsed]
  refine ⟨by simp [hallow], by simp [hallow], by simp [hallow], ?_⟩
  intro ts
  rw [hallow, cbAllowSeq_halfOpen_inflight cfg _ rfl rfl ts]
  simp

/-- C2 witness: a concrete breaker opened at time 0, queried at the default
half-open timeout, admits the probe; two later `allow()` calls both reject. -/
theorem allow_open_admits_exactly_one_probe_witness :
    ((⟨.cbOpen, 5, 0, 0, false⟩ : ProviderCB).state = .cbOpen ∧
      (30000000000 : Int) - (⟨.cbOpen, 5, 0, 0, false⟩ : ProviderCB).openedAt ≥
        ({} : CBConfig).effHalfOpenTimeout) ∧
    (cbAllow {} 30000000000 ⟨.cbOpen, 5, 0, 0, false⟩).1 = true ∧
    (cbAllowSeq {} [31000000000, 32000000000]
        (cbAllow {} 30000000000 ⟨.cbOpen, 5, 0, 0, false⟩).2).1.all
      (fun b => b = false) = true := by
  have h := allow_open_admits_exactly_one_probe {} ⟨.cbOpen, 5, 0, 0, false⟩
    30000000000 rfl (by decide)
  exact ⟨⟨rfl, by decide⟩, h.1, (h.2.2.2 [31000000000, 32000000000]).1⟩

/-- C1 (code evaluation at the failing input): a breaker in HalfOpen whose
rolling error window has expired (probe failure more than `TimeWindow` after
`window_start`) does NOT reopen on `record_failure`: the counter is reset to
1, below the default threshold 5, so the state stays HalfOpen and `opened_at`
is not updated — only `probe_in_flight` is cleared.  This contradicts the
specified HalfOpen→Open transition. -/
theorem recordFailure_halfOpen_window_expired_stays_halfOpen :
    (cbRecordFailure {} 61000000000 ⟨.cbHalfOpen, 5, 0, 0, true⟩).state
        = .cbHalfOpen ∧
    (cbRecordFailure {} 61000000000 ⟨.cbHalfOpen, 5, 0, 0, true⟩).openedAt = 0 ∧
    (cbRecordFailure {} 61000000000 ⟨.cbHalfOpen, 5, 0, 0, true⟩).errorCount = 1 ∧
    (cbRecordFailure {} 61000000000 ⟨.cbHalfOpen, 5, 0, 0, true⟩).probeInflight
        = false := by
  decide

/-- Helper: the invocation trace of the failover loop is bounded by the
remaining retry budget. -/
theorem failoverLoop_invoked_le (m : Nat) :
    ∀ (cands : List Candidate) (a : Nat) (le : Option GoError),
      (failoverLoop m a le cands).invoked.length ≤ m - a := by
  intro cands
  induction cands with
  | nil => intro a le; simp [failoverLoop]
  | cons c rest ih =>
      intro a le
      by_cases hm : m ≤ a
      · simp [failoverLoop, hm]
      · cases c with
        | absent => simpa [failoverLoop, hm] using ih a le
        | denied => simpa [failoverLoop, hm] using ih a le
        | attempt r =>
            cases r with
            | none => simp [failoverLoop, hm]; omega
            | some e =>
                by_cases hr : isRetryable e = true
                · have := ih (a + 1) (some e)
                  simp [failoverLoop, hm, hr]
                  omega
                · simp [failoverLoop, hm, hr]
                  omega

/-- Helper: the final `attempts` counter equals the starting counter plus
the number of provider invocations performed. -/
theorem failoverLoop_attempts_eq (m : Nat) :
    ∀ (cands : List Candidate) (a : Nat) (le : Option GoError),
      (failoverLoop m a le cands).attempts
        = a + (failoverLoop m a le cands).invoked.length := by
  intro cands
  induction cands with
  | nil => intro a le; simp [failoverLoop]
  | cons c rest ih =>
      intro a le
      by_cases hm : m ≤ a
      · simp [failoverLoop, hm]
      · cases c with
        | absent => simpa [failoverLoop, hm] using ih a le
        | denied => simpa [failoverLoop, hm] using ih a le
        | attempt r =>
            cases r with
            | none => simp [failoverLoop, hm]
            | some e =>
                by_cases hr : isRetryable e = true
                · have := ih (a + 1) (some e)
                  simp [failoverLoop, hm, hr]
                  omega
                · simp [failoverLoop, hm, hr]

/-- C3: a failover run never invokes `prov.Request` more than `MaxRetries`
times (the final `attempts` counter equals the number of invocations), and
candidates that are absent from the registry or denied by the breaker are
skipped without consuming the retry budget: dropping such a candidate from
the candidate list leaves the loop result unchanged. -/
theorem failover_attempts_bounded_and_skips_free (m : Nat) (cands : List Candidate) :
    ((requestWithFailover m cands).1.invoked.length ≤ m) ∧
    ((requestWithFailover m cands).1.attempts
        = (requestWithFailover m cands).1.invoked.length) ∧
    (∀ (a : Nat) (le : Option GoError) (rest : List Candidate),
        failoverLoop m a le (.absent :: rest) = failoverLoop m a le rest) ∧
    (∀ (a : Nat) (le : Option GoError) (rest : List Candidate),
        failoverLoop m a le (.denied :: rest) = failoverLoop m a le rest) := by
  have hskip : ∀ (c : Candidate), c = .absent ∨ c = .denied →
      ∀ (a : Nat) (le : Option GoError) (rest : List Candidate),
        failoverLoop m a le (c :: rest) = failoverLoop m a le rest := by
    intro c hc a le rest
    by_cases hm : m ≤ a
    · cases rest with
      | nil => rcases hc with h | h <;> subst h <;> simp [failoverLoop, hm]
      | cons d ds => rcases hc with h | h <;> subst h <;> simp [failoverLoop, hm]
    · rcases hc with h | h <;> subst h <;> simp [failoverLoop, hm]
  have hb : (failoverLoop m 0 none cands).invoked.length ≤ m := by
    simpa using failoverLoop_invoked_le m cands 0 none
  have ha : (failoverLoop m 0 none cands).attempts
      = (failoverLoop m 0 none cands).invoked.length := by
    simpa using failoverLoop_attempts_eq m cands 0 none
  constructor
  · unfold requestWithFailover
    by_cases hs : (failoverLoop m 0 none cands).success <;> simp [hs, hb]
  constructor
  · unfold requestWithFailover
    by_cases hs : (failoverLoop m 0 none cands).success <;> simp [hs, ha]
  exact ⟨fun a le rest => hskip _ (Or.inl rfl) a le rest,
         fun a le rest => hskip _ (Or.inr rfl) a le rest⟩

/-- C4: an error carrying an HTTP status in [400, 500) is not retryable, so
the loop stops immediately after that attempt — the loop result is
independent of every later candidate, exactly one invocation (the failing
one) is recorded from that point, and the top-level run returns an error. -/
theorem client_error_aborts_failover
    (m a : Nat) (le : Option GoError) (s : Int) (msg : String)
    (rest : List Candidate)
    (ha : a < m) (h400 : 400 ≤ s) (h500 : s < 500) :
    failoverLoop m a le (.attempt (some (.statusErr s msg)) :: rest)
      = ⟨[some (.statusErr s msg)], false, a + 1, some (.statusErr s msg)⟩ ∧
    (requestWithFailover m (.attempt (some (.statusErr s msg)) :: rest)).1.invoked
      = [some (.statusErr s msg)] ∧
    (requestWithFailover m (.attempt (some (.statusErr s msg)) :: rest)).2
      = some (.wrapped "failover: all providers failed after 1 attempt(s): "
          (.statusErr s msg)) := by
  have hnr : isRetryable (.statusErr s msg) = false := by
    simp [isRetryable, GoError.asStatusCoder]
    omega
  have hm : ¬ m ≤ a := by omega
  have hloop : failoverLoop m a le (.attempt (some (.statusErr s msg)) :: rest)
      = ⟨[some (.statusErr s msg)], false, a + 1, some (.statusErr s msg)⟩ := by
    simp [failoverLoop, hm, hnr]
  have hm0 : ¬ m ≤ 0 := by omega
  have hloop0 : failoverLoop m 0 none (.attempt (some (.statusErr s msg)) :: rest)
      = ⟨[some (.statusErr s msg)], false, 1, some (.statusErr s msg)⟩ := by
    simp [failoverLoop, hm0, hnr]
  refine ⟨hloop, ?_, ?_⟩
  · simp [requestWithFailover, hloop0]
  · simp only [requestWithFailover, hloop0]
    rfl

/-- C4 witness: primary returns 401 with a healthy fallback configured —
only the primary is invoked, the fallback is never called, and the run
errors out. -/
theorem client_error_aborts_failover_witness :
    ((0 : Nat) < 3 ∧ (400 : Int) ≤ 401 ∧ (401 : Int) < 500) ∧
    (requestWithFailover 3
        [.attempt (some (.statusErr 401 "unauthorized")), .attempt none]).1.invoked
      = [some (.statusErr 401 "unauthorized")] ∧
    (requestWithFailover 3
        [.attempt (some (.statusErr 401 "unauthorized")), .attempt none]).2
      = some (.wrapped "failover: all providers failed after 1 attempt(s): "
          (.statusErr 401 "unauthorized")) := by
  have h := client_error_aborts_failover 3 0 none 401 "unauthorized"
    [.attempt none] (by decide) (by decide) (by decide)
  exact ⟨⟨by decide, by decide, by decide⟩, h.2.1, h.2.2⟩

/-- C5 (code evaluation at the failing input): a chat failover run whose
only candidate fails with an upstream-429 status-bearing error produces a
502 `provider_error` response with no `Retry-After` header — because the
failover error is wrapped with `fmt.Errorf("...: %w", ...)` and
`handleProviderError`'s type assertion does not unwrap it.  The unwrapped
error (as the embeddings path and the unit tests pass it) WOULD map to 429
with `Retry-After: 60` and the rate-limit envelope. -/
theorem chat_429_yields_502_provider_error :
    chatFailoverErrorResponse 3 [.attempt (some (.statusErr 429 "rate limited"))]
      = some ⟨502, none, "provider_error", "provider_error",
          "failover: all providers failed after 1 attempt(s): rate limited"⟩ ∧
    handleProviderError (.statusErr 429 "rate limited")
      = ⟨429, some "60", "rate_limit_error", "rate_limit_exceeded",
          "rate limited"⟩ := by
  constructor <;> rfl

/-- C7 counterexample: an eligible request (non-streaming, cache configured,
no exclusion match) whose lookup HITS performs the lookup but NOT the cache
write — refuting "performs the cache lookup and the cache write if and only
if eligible". -/
theorem cache_hit_skips_write :
    cacheEligible ⟨true, true, false, false, false, true, none, true,
        false, false, true⟩ = true ∧
    (dispatchChatModel ⟨true, true, false, false, false, true, none, true,
        false, false, true⟩).cacheGet = true ∧
    (dispatchChatModel ⟨true, true, false, false, false, true, none, true,
        false, false, true⟩).cacheSet = false := by
  decide

/-- Helper: a streaming request is never written to the cache, whatever the
rest of the environment. -/
theorem stream_never_cached (e : ChatEnv) (hs : e.stream = true) :
    (dispatchChatModel e).cacheSet = false := by
  obtain ⟨p, mg, st, pe, rl, hc, ex, ch, pr, rs, mo⟩ := e
  cases st
  · cases hs
  · cases p <;> cases mg <;> cases pe <;> cases rl <;> cases hc <;>
      rcases ex with _ | b <;> (try cases b) <;> cases ch <;>
      cases pr <;> cases rs <;> cases mo <;> decide

/-- Helper: the X-Cache header is never set on an SSE response. -/
theorem sse_has_no_xcache (e : ChatEnv) (hs : (dispatchChatModel e).sse = true) :
    (dispatchChatModel e).xCache = none := by
  obtain ⟨p, mg, st, pe, rl, hc, ex, ch, pr, rs, mo⟩ := e
  revert hs
  cases p <;> cases mg <;> cases st <;> cases pe <;> cases rl <;> cases hc <;>
    rcases ex with _ | b <;> (try cases b) <;> cases ch <;> cases pr <;>
    cases rs <;> cases mo <;> decide

/-- C7 amended: among requests that pass the parse, model, registry and
rate-limit checks, the cache lookup is performed iff the request is
eligible (non-streaming ∧ cache configured ∧ exclusions do not match), and
the cache write is performed iff it is eligible AND the lookup missed AND
the provider call and the response serialization succeeded.  Streaming
responses are never written to the cache and X-Cache is never set on SSE. -/
theorem cache_gating_amended (env : ChatEnv)
    (hp : env.parseOk = true) (hm : env.modelGiven = true)
    (hpe : env.providersEmpty = false) (hr : env.rateLimited = false) :
    ((dispatchChatModel env).cacheGet = cacheEligible env) ∧
    ((dispatchChatModel env).cacheSet =
        (cacheEligible env && !env.cacheHit && !env.providerErr
          && env.marshalOk)) ∧
    (∀ e : ChatEnv, e.stream = true → (dispatchChatModel e).cacheSet = false) ∧
    (∀ e : ChatEnv, (dispatchChatModel e).sse = true →
        (dispatchChatModel e).xCache = none) := by
  refine ⟨?_, ?_, fun e hs => stream_never_cached e hs,
          fun e hs => sse_has_no_xcache e hs⟩ <;>
    · obtain ⟨p, mg, st, pe, rl, hc, ex, ch, pr, rs, mo⟩ := env
      simp only at hp hm hpe hr
      subst hp; subst hm; subst hpe; subst hr
      cases st <;> cases hc <;> rcases ex with _ | b <;> (try cases b) <;>
        cases ch <;> cases pr <;> cases rs <;> cases mo <;> decide

/-- C7 amended, witness: an eligible miss with a successful provider call
performs both the lookup and the write. -/
theorem cache_gating_amended_witness :
    ((⟨true, true, false, false, false, true, none, false, false, false,
        true⟩ : ChatEnv).parseOk = true) ∧
    (dispatchChatModel ⟨true, true, false, false, false, true, none, false,
        false, false, true⟩).cacheGet
      = cacheEligible ⟨true, true, false, false, false, true, none, false,
        false, false, true⟩ ∧
    (dispatchChatModel ⟨true, true, false, false, false, true, none, false,
        false, false, true⟩).cacheSet
      = (cacheEligible ⟨true, true, false, false, false, true, none, false,
          false, false, true⟩ && !false && !false && true) := by
  have h := cache_gating_amended ⟨true, true, false, false, false, true, none,
    false, false, false, true⟩ rfl rfl rfl rfl
  exact ⟨rfl, h.1, h.2.1⟩

/-- C8 counterexample: `ExactCache.Set` forwards a non-positive TTL to the
Redis client unchanged — it is NOT coerced to one hour. -/
theorem exactCache_no_ttl_coercion :
    (exactCacheSet "cache:abc" [42] 0).ttl ≠ timeHour ∧
    (exactCacheSet "cache:abc" [42] (-5)).ttl = -5 := by
  decide

/-- C8 amended: `MemoryCache.Set` coerces a non-positive TTL to one hour, so
a `Get` of that key within the hour returns `(value, true)`; `ExactCache.Set`
forwards key, value and TTL to Redis unchanged (no coercion). -/
theorem set_nonpositive_ttl (store : MemStore) (now t1 : Int) (key : String)
    (v : List Nat) (ttl : Int)
    (httl : ttl ≤ 0) (hwithin : t1 ≤ now + timeHour) :
    memGet (memSet store now key v ttl) t1 key = (some v, true) ∧
    (∀ (k : String) (val : List Nat) (t : Int),
        exactCacheSet k val t = ⟨k, val, t⟩) := by
  constructor
  · have h : ¬ t1 > now + timeHour := by omega
    simp [memGet, memSet, httl, h]
  · intro k val t; rfl

/-- C8 amended, witness. -/
theorem set_nonpositive_ttl_witness :
    ((0 : Int) ≤ 0 ∧ (timeHour : Int) ≤ 0 + timeHour) ∧
    memGet (memSet (fun _ => none) 0 "k" [7] 0) timeHour "k" = (some [7], true) := by
  have h := set_nonpositive_ttl (fun _ => none) 0 timeHour "k" [7] 0
    (by decide) (by omega)
  exact ⟨⟨by decide, by omega⟩, h.1⟩

/-- Helper: the general accounting of `n` undrained `Log` calls. -/
theorem loggerLogN_accounting :
    ∀ (n q d : Nat), q ≤ channelBuffer →
      loggerLogN n ⟨q, d⟩
        = ⟨min (q + n) channelBuffer, d + (q + n - channelBuffer)⟩ := by
  intro n
  induction n with
  | zero =>
      intro q d hq
      simp [loggerLogN]
      omega
  | succ n ih =>
      intro q d hq
      by_cases h : q < channelBuffer
      · have := ih (q + 1) d (by omega)
        simp [loggerLogN, loggerLog, h, this]
        omega
      · have hqe : q = channelBuffer := by omega
        subst hqe
        have := ih channelBuffer (d + 1) (by omega)
        simp [loggerLogN, loggerLog, this]
        omega

/-- C9: `Log` never blocks — it either enqueues (queue below the 10,000
capacity) or drops and counts; submitting `n` entries to a logger whose
consumer is not draining leaves `min n 10000` entries queued and increments
the dropped count by exactly `n - 10000` (0 when `n ≤ 10000`). -/
theorem log_drops_beyond_capacity (n : Nat) :
    loggerLogN n ⟨0, 0⟩ = ⟨min n channelBuffer, n - channelBuffer⟩ := by
  simpa using loggerLogN_accounting n 0 0 (by omega)

/-- C10: when the resolved embedding provider is absent from a non-empty
registry, the dispatcher substitutes the first provider yielded by map
iteration (modelled as an arbitrary registry member) and proceeds: the
result is the Embed call on the substitute, or 400 "provider does not
support embeddings" exactly when the substitute lacks the Embedding
capability — never a routing error. -/
theorem embeddings_absent_provider_substitutes
    (reg : List (String × Bool)) (pick : String × Bool) (model : String)
    (hne : reg ≠ [])
    (habs : registryLookup reg (resolveEmbeddingProvider model) = none)
    (hpick : pick ∈ reg) :
    dispatchEmbeddingsRoute reg pick model
      = (if pick.2 then .embedCall pick.1 else .unsupported pick.1) ∧
    dispatchEmbeddingsRoute reg pick model ≠ .noProviders := by
  have hke : reg.isEmpty = false := by
    cases reg with
    | nil => exact absurd rfl hne
    | cons x xs => rfl
  have hroute : dispatchEmbeddingsRoute reg pick model
      = (if pick.2 then .embedCall pick.1 else .unsupported pick.1) := by
    simp [dispatchEmbeddingsRoute, hke, habs]
  refine ⟨hroute, ?_⟩
  rw [hroute]
  by_cases hp : pick.2 <;> simp [hp]

/-- C10 witness: a registry holding only an embedding-capable "anthropic";
the OpenAI-aliased embedding model resolves to the absent "openai", and the
dispatcher substitutes and calls "anthropic". -/
theorem embeddings_absent_provider_substitutes_witness :
    (([("anthropic", true)] : List (String × Bool)) ≠ [] ∧
      registryLookup [("anthropic", true)]
        (resolveEmbeddingProvider "text-embedding-3-small") = none ∧
      ("anthropic", true) ∈ ([("anthropic", true)] : List (String × Bool))) ∧
    dispatchEmbeddingsRoute [("anthropic", true)] ("anthropic", true)
        "text-embedding-3-small" = .embedCall "anthropic" := by
  have h := embeddings_absent_provider_substitutes [("anthropic", true)]
    ("anthropic", true) "text-embedding-3-small" (by decide) (by decide)
    (by decide)
  exact ⟨⟨by decide, by decide, by decide⟩, by simpa using h.1⟩

theorem dropLit_rt (l rest : List Char) : dropLitChars l (l ++ rest) = some rest := by
  induction l with
  | nil => rfl
  | cons c cs ih => simp [dropLitChars, ih]

theorem hexVal_hexDigitChar : ∀ d, d < 16 → hexVal (hexDigitChar d) = some d := by
  decide

theorem parseStrBody_step (c : Char) (tail : List Char) :
    parseStrBody (goEscapeChar c ++ tail)
      = (parseStrBody tail).map (fun p => (c :: p.1, p.2)) := by
  by_cases h1 : c = '"'
  · subst h1; simp only [goEscapeChar]; simp
    rw [parseStrBody.eq_def]; simp
  by_cases h2 : c = '\\'
  · subst h2; simp only [goEscapeChar]; simp
    rw [parseStrBody.eq_def]; simp
  by_cases h3 : c = '\n'
  · subst h3; simp only [goEscapeChar]; simp
    rw [parseStrBody.eq_def]; simp
  by_cases h4 : c = '\r'
  · subst h4; simp only [goEscapeChar]; simp
    rw [parseStrBody.eq_def]; simp
  by_cases h5 : c = '\t'
  · subst h5; simp only [goEscapeChar]; simp
    rw [parseStrBody.eq_def]; simp
  by_cases h6 : c = '<' ∨ c = '>' ∨ c = '&'
  · rcases h6 with h | h | h <;> subst h <;>
      · simp only [goEscapeChar]; simp [hexDigitChar]
        rw [parseStrBody.eq_def]; simp [hexVal]
  by_cases h7 : c.toNat < 32
  · have hdiv : c.toNat / 16 < 16 := by omega
    have hmod : c.toNat % 16 < 16 := by omega
    have hval : ((0 * 16 + 0) * 16 + c.toNat / 16) * 16 + c.toNat % 16 = c.toNat := by
      omega
    have hval2 : c.toNat / 16 * 16 + c.toNat % 16 = c.toNat := by omega
    have h0 : hexVal '0' = some 0 := by decide
    simp only [goEscapeChar, h1, h2, h3, h4, h5, h6, h7, if_neg, if_pos,
      ite_false, ite_true]
    simp
    rw [parseStrBody.eq_def]
    simp [h0, hexVal_hexDigitChar _ hdiv, hexVal_hexDigitChar _ hmod, hval,
      hval2, Char.ofNat_toNat]
  by_cases h8 : c.toNat = 8232 ∨ c.toNat = 8233
  · have hc : c = Char.ofNat c.toNat := (Char.ofNat_toNat c).symm
    rcases h8 with h | h <;> rw [hc, h] <;>
      · simp only [goEscapeChar]; simp [hexDigitChar]
        rw [parseStrBody.eq_def]; simp [hexVal]
  · simp only [goEscapeChar, h1, h2, h3, h4, h5, h6, h7, h8, ite_false]
    simp [h1, h2, h3, h4, h5, h6, h7, h8]
    rw [parseStrBody.eq_def]
    simp [h1, h2]

theorem parseStrBody_rt (s : List Char) : ∀ rest,
    parseStrBody (escChars s ++ ('"' :: rest)) = some (s, rest) := by
  induction s with
  | nil => intro rest; rw [escChars]; simp; rw [parseStrBody.eq_def]; simp
  | cons c cs ih =>
      intro rest
      rw [escChars, List.append_assoc, parseStrBody_step, ih]
      rfl

theorem parseQuoted_rt (s rest : List Char) :
    parseQuoted (quoteChars s ++ rest) = some (s, rest) := by
  have h : quoteChars s ++ rest = '"' :: (escChars s ++ ('"' :: rest)) := by
    simp [quoteChars]
  rw [h, parseQuoted, parseStrBody_rt]

theorem dropLit_self (l : List Char) : dropLitChars l l = some [] := by
  simpa using dropLit_rt l []

theorem parseNatAux_digit (d : Nat) (hd : d < 10) (rest : List Char) (acc : Nat) :
    parseNatAux (digitChar d :: rest) acc = parseNatAux rest (acc * 10 + d) := by
  have h1 : (digitChar d).isDigit = true := by revert d; decide
  have h2 : (digitChar d).toNat - 48 = d := by revert d; decide
  simp [parseNatAux, h1, h2]

theorem natToChars_parse (n : Nat) : ∀ (acc : Nat) (rest : List Char),
    ∃ p : Nat, parseNatAux (natToChars n ++ rest) acc = parseNatAux rest (acc * p + n) := by
  induction n using Nat.strong_induction_on with
  | _ n ih =>
      intro acc rest
      rw [natToChars]
      by_cases h : n < 10
      · refine ⟨10, ?_⟩
        simp only [h, dite_true, List.cons_append, List.nil_append]
        exact parseNatAux_digit n h rest acc
      · have hdiv : n / 10 < n := Nat.div_lt_self (by omega) (by omega)
        obtain ⟨p, hp⟩ := ih (n / 10) hdiv acc (digitChar (n % 10) :: rest)
        refine ⟨p * 10, ?_⟩
        simp only [h, dite_false, List.append_assoc, List.cons_append,
          List.nil_append]
        rw [hp, parseNatAux_digit (n % 10) (by omega)]
        congr 1
        have hmul : acc * (p * 10) = acc * p * 10 := by ring
        rw [hmul]
        generalize acc * p = A
        omega

theorem parseNatAux_stop (rest : List Char) (acc : Nat)
    (h : ∀ c, rest.head? = some c → c.isDigit = false) :
    parseNatAux rest acc = (acc, rest) := by
  cases rest with
  | nil => rfl
  | cons c cs =>
      have := h c rfl
      simp [parseNatAux, this]

theorem natToChars_head (n : Nat) :
    ∃ d cs, d < 10 ∧ natToChars n = digitChar d :: cs := by
  induction n using Nat.strong_induction_on with
  | _ n ih =>
      rw [natToChars]
      by_cases h : n < 10
      · exact ⟨n, [], h, by simp [h]⟩
      · have hdiv : n / 10 < n := Nat.div_lt_self (by omega) (by omega)
        obtain ⟨d, cs, hd, hcs⟩ := ih (n / 10) hdiv
        exact ⟨d, cs ++ [digitChar (n % 10)], hd, by simp [h, hcs]⟩

theorem parseIntChars_rt (mt : Int) (rest : List Char)
    (h : ∀ c, rest.head? = some c → c.isDigit = false) :
    parseIntChars (intToChars mt ++ rest) = some (mt, rest) := by
  have hnat : ∀ (n : Nat), parseNatAux (natToChars n ++ rest) 0 = (n, rest) := by
    intro n
    obtain ⟨p, hp⟩ := natToChars_parse n 0 rest
    rw [hp]
    simpa using parseNatAux_stop rest n h
  cases mt with
  | ofNat n =>
      obtain ⟨d, cs, hd, hcs⟩ := natToChars_head n
      have hdig : (digitChar d).isDigit = true :=
        (show ∀ e, e < 10 → (digitChar e).isDigit = true by decide) d hd
      have hne : ¬ digitChar d = '-' :=
        (show ∀ e, e < 10 → ¬ digitChar e = '-' by decide) d hd
      have hshape : intToChars (Int.ofNat n) ++ rest = digitChar d :: (cs ++ rest) := by
        simp [intToChars, hcs]
      have hback : digitChar d :: (cs ++ rest) = natToChars n ++ rest := by
        simp [hcs]
      rw [hshape, parseIntChars.eq_def]
      simp only [hne, hdig, if_false, if_true, ite_false, ite_true]
      rw [hback, hnat n]
      rfl
  | negSucc n =>
      obtain ⟨d, cs, hd, hcs⟩ := natToChars_head (n + 1)
      have hdig : (digitChar d).isDigit = true :=
        (show ∀ e, e < 10 → (digitChar e).isDigit = true by decide) d hd
      have hshape : intToChars (Int.negSucc n) ++ rest
          = '-' :: (natToChars (n + 1) ++ rest) := by
        simp [intToChars]
      have hhead : natToChars (n + 1) ++ rest = digitChar d :: (cs ++ rest) := by
        simp [hcs]
      rw [hshape, parseIntChars.eq_def]
      simp only [if_pos rfl]
      rw [hhead]
      simp only [hdig, if_true, ite_true]
      rw [← hhead, hnat (n + 1)]
      simp [Int.negSucc_eq]

theorem parseMsg_rt (m : Message) (rest : List Char) :
    parseMsg (msgChars m ++ rest)
      = some ((m.role.data, m.content.data), rest) := by
  have hshape : msgChars m ++ rest
      = lit "\x7b\"role\":" ++ (quoteChars m.role.data
        ++ (lit ",\"content\":" ++ (quoteChars m.content.data
          ++ (lit "\x7d" ++ rest)))) := by
    simp [msgChars]
  rw [hshape]
  simp [parseMsg, dropLit_rt, parseQuoted_rt]

theorem commaSep_msgs_length (L : List Message) :
    L.length ≤ (commaSep (L.map msgChars)).length := by
  have hone : ∀ m : Message, 1 ≤ (msgChars m).length := by
    intro m; simp [msgChars, lit]
  induction L with
  | nil => simp [commaSep]
  | cons m ms ih =>
      cases ms with
      | nil => simpa [commaSep] using hone m
      | cons m2 ms2 =>
          have h1 := hone m
          simp only [List.map, commaSep, List.length_append, List.length_cons]
          simp only [List.map, List.length_cons] at ih
          omega

theorem parseMsgsAux_rt (ms : List Message) :
    ∀ (m : Message) (fuel : Nat) (rest : List Char), ms.length < fuel →
      parseMsgsAux fuel (commaSep ((m :: ms).map msgChars) ++ (']' :: rest))
        = some ((m :: ms).map (fun x => (x.role.data, x.content.data)), rest) := by
  induction ms with
  | nil =>
      intro m fuel rest hf
      cases fuel with
      | zero => omega
      | succ f =>
          simp only [List.map, commaSep]
          rw [parseMsgsAux, parseMsg_rt]
          simp
  | cons m2 ms2 ih =>
      intro m fuel rest hf
      cases fuel with
      | zero => omega
      | succ f =>
          have hshape : commaSep ((m :: m2 :: ms2).map msgChars) ++ (']' :: rest)
              = msgChars m ++ (',' :: (commaSep ((m2 :: ms2).map msgChars)
                  ++ (']' :: rest))) := by
            simp [commaSep]
          rw [hshape, parseMsgsAux, parseMsg_rt]
          have hrec := ih m2 f rest (by simpa using Nat.lt_of_succ_lt_succ hf)
          simp only [List.map] at hrec ⊢
          simp [hrec]

theorem parseMsgsChars_rt (msgs : List Message) (rest : List Char) :
    parseMsgsChars (msgsChars msgs ++ rest)
      = some (msgs.map (fun x => (x.role.data, x.content.data)), rest) := by
  cases msgs with
  | nil =>
      have hshape : msgsChars [] ++ rest = lit "[" ++ (lit "]" ++ rest) := by
        simp [msgsChars, commaSep]
      rw [hshape]
      simp [parseMsgsChars, dropLit_rt]
  | cons m ms =>
      have hshape : msgsChars (m :: ms) ++ rest
          = lit "[" ++ (commaSep ((m :: ms).map msgChars) ++ (']' :: rest)) := by
        simp [msgsChars, lit]
      rw [hshape]
      have hnone : dropLitChars (lit "]")
          (commaSep ((m :: ms).map msgChars) ++ (']' :: rest)) = none := by
        cases ms with
        | nil => rfl
        | cons m2 ms2 => rfl
      simp only [parseMsgsChars, dropLit_rt, hnone, Option.bind_eq_bind,
        Option.some_bind]
      exact parseMsgsAux_rt ms m _ rest (by
        have := commaSep_msgs_length (m :: ms)
        simp only [List.length_append, List.length_cons] at *
        omega)

theorem parseField_rt (tag : String) (s rest : List Char) :
    parseField tag (lit tag ++ (quoteChars s ++ rest)) = some (s, rest) := by
  simp [parseField, dropLit_rt, parseQuoted_rt]

theorem parseCanonicalTail_rt (mt : Int) (msgs : List Message) :
    parseCanonicalTail (lit ",\"mt\":" ++ (intToChars mt
        ++ (lit ",\"msgs\":" ++ (msgsChars msgs ++ lit "\x7d"))))
      = some (mt, msgs.map (fun x => (x.role.data, x.content.data))) := by
  have hint : parseIntChars (intToChars mt
      ++ (lit ",\"msgs\":" ++ (msgsChars msgs ++ lit "\x7d")))
      = some (mt, lit ",\"msgs\":" ++ (msgsChars msgs ++ lit "\x7d")) := by
    apply parseIntChars_rt
    intro c hc
    have hh : (lit ",\"msgs\":" ++ (msgsChars msgs ++ lit "\x7d")).head?
        = some ',' := rfl
    rw [hh] at hc
    cases hc
    decide
  simp [parseCanonicalTail, dropLit_rt, hint, parseMsgsChars_rt, dropLit_self]

theorem parseCanonical_rt (req : ProxyRequest) :
    parseCanonical (canonicalJsonChars req)
      = some (req.workspaceID.data, req.apiKeyID.data,
          (resolveProvider req.model).data, req.model.data,
          fmtF2 req.temperature, req.maxTokens,
          req.messages.map (fun m => (m.role.data, m.content.data))) := by
  have hshape : canonicalJsonChars req
      = lit "\x7b\"w\":" ++ (quoteChars req.workspaceID.data
        ++ (lit ",\"k\":" ++ (quoteChars req.apiKeyID.data
        ++ (lit ",\"p\":" ++ (quoteChars (resolveProvider req.model).data
        ++ (lit ",\"m\":" ++ (quoteChars req.model.data
        ++ (lit ",\"t\":" ++ (quoteChars (fmtF2 req.temperature)
        ++ (lit ",\"mt\":" ++ (intToChars req.maxTokens
        ++ (lit ",\"msgs\":" ++ (msgsChars req.messages
        ++ lit "\x7d"))))))))))))) := by
    simp [canonicalJsonChars, msgsChars]
  rw [hshape]
  simp only [parseCanonical, parseField_rt, parseCanonicalTail_rt,
    Option.bind_eq_bind, Option.some_bind]
  rfl

theorem stringData_inj (s t : String) (h : s.data = t.data) : s = t := by
  cases s; cases t; congr 1

theorem msgMap_inj (l1 l2 : List Message)
    (h : l1.map (fun m => (m.role.data, m.content.data))
       = l2.map (fun m => (m.role.data, m.content.data))) : l1 = l2 := by
  have hinj : Function.Injective
      (fun m : Message => (m.role.data, m.content.data)) := by
    intro a b hab
    obtain ⟨ra, ca⟩ := a
    obtain ⟨rb, cb⟩ := b
    simp only [Prod.mk.injEq] at hab
    simp only [Message.mk.injEq]
    exact ⟨stringData_inj _ _ hab.1, stringData_inj _ _ hab.2⟩
  exact List.map_injective_iff.mpr hinj h

/-- The canonical JSON serialization determines every keyed field: equal
payloads force equal workspace ids, api-key ids, models, `%.2f`-rendered
temperatures, max_tokens and message lists. -/
theorem canonicalJson_inj (r1 r2 : ProxyRequest)
    (h : canonicalJsonChars r1 = canonicalJsonChars r2) :
    r1.workspaceID = r2.workspaceID ∧ r1.apiKeyID = r2.apiKeyID ∧
    r1.model = r2.model ∧ fmtF2 r1.temperature = fmtF2 r2.temperature ∧
    r1.maxTokens = r2.maxTokens ∧ r1.messages = r2.messages := by
  have h1 := parseCanonical_rt r1
  have h2 := parseCanonical_rt r2
  rw [h] at h1
  have := h1.symm.trans h2
  simp only [Option.some.injEq, Prod.mk.injEq] at this
  obtain ⟨hw, hk, hp, hm, ht, hmt, hmsgs⟩ := this
  exact ⟨stringData_inj _ _ hw, stringData_inj _ _ hk,
    stringData_inj _ _ hm, ht, hmt, msgMap_inj _ _ hmsgs⟩

/-- Helper: a rational in [0, 1/2) rounds (half-to-even) to 0. -/
theorem roundHalfEven_eq_zero (q : ℚ) (h0 : 0 ≤ q) (h1 : q < 1 / 2) :
    roundHalfEven q = 0 := by
  have hfl : ⌊q⌋ = 0 := by
    rw [Int.floor_eq_zero_iff, Set.mem_Ico]
    exact ⟨h0, by linarith⟩
  simp only [roundHalfEven, hfl]
  rw [if_pos (by push_cast; linarith)]

/-- Helper: a non-negative temperature that rounds to 0 renders as "0.00". -/
theorem fmtF2_render_zero (q : ℚ) (h0 : ¬ q < 0)
    (hr : roundHalfEven (q * 100) = 0) : fmtF2 q = lit "0.00" := by
  simp only [fmtF2, if_neg h0, fmtF2abs, hr]
  norm_num
  simp [natToChars, twoFracDigits, digitChar, lit]

/-- Helper: "%.2f" renders both 0 and the float64 value of 0.001 as "0.00". -/
theorem fmtF2_float_point_001 :
    fmtF2 (0 : ℚ) = fmtF2 ((4611686018427388 : ℚ) / 4611686018427387904) := by
  have h1 : fmtF2 (0 : ℚ) = lit "0.00" :=
    fmtF2_render_zero 0 (by norm_num)
      (roundHalfEven_eq_zero _ (by norm_num) (by norm_num))
  have h2 : fmtF2 ((4611686018427388 : ℚ) / 4611686018427387904) = lit "0.00" :=
    fmtF2_render_zero _ (by norm_num)
      (roundHalfEven_eq_zero _ (by positivity) (by norm_num))
  rw [h1, h2]

/-- C6 counterexample: two requests that differ in temperature — 0 versus
the exact value of the float64 nearest 0.001 — produce the SAME cache key,
because `fmt.Sprintf("%.2f", ·)` renders both as `"0.00"`.  This refutes
"two requests that differ in any of … temperature … yield different keys". -/
theorem cacheKey_temperature_collision :
    buildCacheKey
      { model := "gpt-4o",
        messages := [{ role := "user", content := "hi" }],
        temperature := 0, maxTokens := 100,
        workspaceID := "ws", apiKeyID := "key" }
      = buildCacheKey
        { model := "gpt-4o",
          messages := [{ role := "user", content := "hi" }],
          temperature := 4611686018427388 / 4611686018427387904,
          maxTokens := 100, workspaceID := "ws", apiKeyID := "key" } ∧
    (0 : ℚ) ≠ 4611686018427388 / 4611686018427387904 := by
  constructor
  · have hfmt : fmtF2 (0 : ℚ)
        = fmtF2 ((4611686018427388 : ℚ) / 4611686018427387904) :=
      fmtF2_float_point_001
    have hjson : canonicalJsonChars
        { model := "gpt-4o",
          messages := [{ role := "user", content := "hi" }],
          temperature := 0, maxTokens := 100,
          workspaceID := "ws", apiKeyID := "key" }
        = canonicalJsonChars
          { model := "gpt-4o",
            messages := [{ role := "user", content := "hi" }],
            temperature := 4611686018427388 / 4611686018427387904,
            maxTokens := 100, workspaceID := "ws", apiKeyID := "key" } := by
      simp only [canonicalJsonChars]
      rw [hfmt]
    unfold buildCacheKey
    rw [hjson]
  · norm_num

/-- C6 amended: the cache key is a deterministic function of
`{workspace_id, api_key_id, model (and its resolved provider), "%.2f"
temperature rendering, max_tokens, messages}` — requests agreeing on those
(in particular, temperatures that render alike, such as 0 and 0.001) get
equal keys; the canonical JSON payload is injective in workspace_id,
api_key_id, model, rendered temperature, max_tokens and messages, so
requests differing in any of them have different payloads; and equal keys
force equal hex-encoded SHA-256 digests, so requests with different
payloads get different keys unless their SHA-256 digests collide. -/
theorem cacheKey_amended :
    (∀ r1 r2 : ProxyRequest,
        r1.workspaceID = r2.workspaceID → r1.apiKeyID = r2.apiKeyID →
        r1.model = r2.model → fmtF2 r1.temperature = fmtF2 r2.temperature →
        r1.maxTokens = r2.maxTokens → r1.messages = r2.messages →
        buildCacheKey r1 = buildCacheKey r2) ∧
    (∀ r1 r2 : ProxyRequest, canonicalJsonChars r1 = canonicalJsonChars r2 →
        r1.workspaceID = r2.workspaceID ∧ r1.apiKeyID = r2.apiKeyID ∧
        r1.model = r2.model ∧ fmtF2 r1.temperature = fmtF2 r2.temperature ∧
        r1.maxTokens = r2.maxTokens ∧ r1.messages = r2.messages) ∧
    (∀ r1 r2 : ProxyRequest, buildCacheKey r1 = buildCacheKey r2 →
        hexOfBytes (sha256 (utf8Bytes (canonicalJsonChars r1)))
          = hexOfBytes (sha256 (utf8Bytes (canonicalJsonChars r2)))) := by
  refine ⟨?_, fun r1 r2 h => canonicalJson_inj r1 r2 h, ?_⟩
  · intro r1 r2 hw hk hm ht hmt hmsgs
    have hjson : canonicalJsonChars r1 = canonicalJsonChars r2 := by
      simp only [canonicalJsonChars]
      rw [hw, hk, hm, ht, hmt, hmsgs]
    unfold buildCacheKey
    rw [hjson]
  · intro r1 r2 h
    have hd := congrArg String.data h
    simp only [String.data_append] at hd
    exact List.append_cancel_left hd

/-- C6 amended, witness: two concrete requests whose temperatures (0 and
float64 0.001) render alike under "%.2f" receive equal cache keys. -/
theorem cacheKey_amended_witness :
    fmtF2 (0 : ℚ) = fmtF2 ((4611686018427388 : ℚ) / 4611686018427387904) ∧
    buildCacheKey
      { model := "gpt-4o", messages := [],
        temperature := 0, maxTokens := 64,
        workspaceID := "w1", apiKeyID := "k1" }
      = buildCacheKey
        { model := "gpt-4o", messages := [],
          temperature := 4611686018427388 / 4611686018427387904,
          maxTokens := 64, workspaceID := "w1", apiKeyID := "k1" } :=
  ⟨fmtF2_float_point_001,
    cacheKey_amended.1
      { model := "gpt-4o", messages := [], temperature := 0, maxTokens := 64,
        workspaceID := "w1", apiKeyID := "k1" }
      { model := "gpt-4o", messages := [],
        temperature := 4611686018427388 / 4611686018427387904,
        maxTokens := 64, workspaceID := "w1", apiKeyID := "k1" }
      rfl rfl rfl fmtF2_float_point_001 rfl rfl⟩

end LLMGateway
